import Mathlib

/-!
Verification of the MCA (Merchant Cash Advance) qualification engine
(`mca_qualification.py`): criteria configuration, scoring, decision and
offer-calculation stages, embedded shallowly over exact rationals.

Modelling conventions:
* Python floats are embedded as exact rationals (`ℚ`); `round(x, n)` is
  embedded as round-half-to-even at `n` decimal digits (`roundTo`).
* Python strings used for substring matching are compared through their
  character lists; `str.lower()` is `Char.toLower` mapped over the
  characters (all configured industry names are ASCII).
* Human-readable prose fields (`reasoning`, `description`,
  `recommendations`) carry no control flow and are omitted; the
  machine-readable fields (scores, tiers, statuses, amounts) are kept.
* The reason strings built by `make_qualification_decision` for floor
  violations are abstracted to one `FloorViolation` tag per violated
  floor (the source builds exactly one formatted string per violation);
  the prose reasons of the low-score rejection branch are not modelled.
-/

namespace MCA

/-- Round-half-to-even on an exact rational, the rounding mode of Python's
built-in `round`: values with fractional part below 1/2 round down, above
1/2 round up, and exact halves round to the even neighbour. -/
def rndHalfEven (q : ℚ) : ℤ :=
  let f := ⌊q⌋
  if q - f < 1/2 then f
  else if (1 : ℚ)/2 < q - f then f + 1
  else if f % 2 = 0 then f else f + 1

/-- Embedding of Python's `round(q, n)` on exact rationals. -/
def roundTo (n : ℕ) (q : ℚ) : ℚ := (rndHalfEven (q * 10 ^ n) : ℚ) / 10 ^ n

theorem floor_le_rndHalfEven (q : ℚ) : ⌊q⌋ ≤ rndHalfEven q := by
  simp only [rndHalfEven]
  split_ifs <;> omega

theorem rndHalfEven_le_floor_add_one (q : ℚ) : rndHalfEven q ≤ ⌊q⌋ + 1 := by
  simp only [rndHalfEven]
  split_ifs <;> omega

theorem rndHalfEven_mono {a b : ℚ} (h : a ≤ b) : rndHalfEven a ≤ rndHalfEven b := by
  rcases lt_or_eq_of_le (Int.floor_le_floor h) with hlt | heq
  · calc rndHalfEven a ≤ ⌊a⌋ + 1 := rndHalfEven_le_floor_add_one a
      _ ≤ ⌊b⌋ := by omega
      _ ≤ rndHalfEven b := floor_le_rndHalfEven b
  · have hab : a - (⌊a⌋ : ℚ) ≤ b - (⌊a⌋ : ℚ) := by linarith
    simp only [rndHalfEven]
    rw [← heq]
    split_ifs <;> first | omega | (exfalso; linarith)

theorem roundTo_mono (n : ℕ) {a b : ℚ} (h : a ≤ b) : roundTo n a ≤ roundTo n b := by
  have h10 : (0 : ℚ) < 10 ^ n := by positivity
  have hm : rndHalfEven (a * 10 ^ n) ≤ rndHalfEven (b * 10 ^ n) :=
    rndHalfEven_mono (mul_le_mul_of_nonneg_right h (le_of_lt h10))
  exact (div_le_div_iff_of_pos_right h10).mpr (by exact_mod_cast hm)

/-- Transfer of bounds through rounding: if the endpoints are fixed points
of `roundTo n`, a value between them rounds to a value between them. -/
theorem roundTo_bounds {lo hi q : ℚ} (n : ℕ) (hlo : roundTo n lo = lo)
    (hhi : roundTo n hi = hi) (h1 : lo ≤ q) (h2 : q ≤ hi) :
    lo ≤ roundTo n q ∧ roundTo n q ≤ hi :=
  ⟨hlo ▸ roundTo_mono n h1, hhi ▸ roundTo_mono n h2⟩

/-! Data model, from the shapes produced by `get_default_mca_criteria` and
the dictionaries built by the scoring/decision/offer functions. -/

/-- Element of `minimum_requirements`. -/
structure MinimumRequirements where
  monthly_revenue : ℚ
  time_in_business_months : ℤ
  credit_score : ℤ

/-- One entry of `revenue_tiers`. -/
structure RevenueTier where
  min : ℚ
  max_advance_percentage : ℚ

/-- The `revenue_tiers` table. -/
structure RevenueTiers where
  tier_1 : RevenueTier
  tier_2 : RevenueTier
  tier_3 : RevenueTier
  tier_4 : RevenueTier

/-- One entry of `credit_score_tiers`. -/
structure CreditTier where
  min : ℤ
  factor_rate_adjustment : ℚ

/-- The `credit_score_tiers` table. -/
structure CreditScoreTiers where
  excellent : CreditTier
  good : CreditTier
  fair : CreditTier
  poor : CreditTier
  very_poor : CreditTier

/-- One entry of `time_in_business_multipliers`. -/
structure TimeTier where
  min_months : ℤ
  multiplier : ℚ

/-- The `time_in_business_multipliers` table. -/
structure TimeInBusinessMultipliers where
  established : TimeTier
  mature : TimeTier
  growing : TimeTier
  new : TimeTier

/-- One risk class of `industry_risk_factors`; `name` is the dict key
(`"low_risk"`, `"medium_risk"`, `"high_risk"`). The classes are kept as a
list in dict insertion order, because `score_industry` and
`get_industry_adjustment` iterate the dict in that order and take the
first match. -/
structure IndustryRiskClass where
  name : String
  industries : List String
  factor_rate_adjustment : ℚ

/-- One entry of `base_factor_rates`. -/
structure FactorRateBand where
  min_score : ℚ
  factor_rate : ℚ

/-- The `base_factor_rates` table. -/
structure BaseFactorRates where
  premium : FactorRateBand
  standard : FactorRateBand
  subprime : FactorRateBand
  high_risk : FactorRateBand

/-- The criteria configuration dictionary. The `repayment_terms` table and
the prose `description` fields are never read by the scoring, decision or
offer code and are omitted. -/
structure Criteria where
  minimum_requirements : MinimumRequirements
  revenue_tiers : RevenueTiers
  credit_score_tiers : CreditScoreTiers
  time_in_business_multipliers : TimeInBusinessMultipliers
  industry_risk_factors : List IndustryRiskClass
  base_factor_rates : BaseFactorRates

/-- Applicant record (`business_data`), with the four required fields the
pipeline reads. -/
structure BusinessData where
  monthly_revenue : ℚ
  time_in_business_months : ℤ
  credit_score : ℤ
  industry : String

/-- Default configuration returned by `get_default_mca_criteria`. -/
def get_default_mca_criteria : Criteria where
  minimum_requirements := ⟨10000, 6, 500⟩
  revenue_tiers :=
    { tier_1 := ⟨100000, 250⟩
      tier_2 := ⟨50000, 200⟩
      tier_3 := ⟨25000, 150⟩
      tier_4 := ⟨10000, 100⟩ }
  credit_score_tiers :=
    { excellent := ⟨720, -0.05⟩
      good := ⟨680, 0.0⟩
      fair := ⟨620, 0.03⟩
      poor := ⟨550, 0.08⟩
      very_poor := ⟨500, 0.15⟩ }
  time_in_business_multipliers :=
    { established := ⟨36, 1.2⟩
      mature := ⟨24, 1.1⟩
      growing := ⟨12, 1.0⟩
      new := ⟨6, 0.8⟩ }
  industry_risk_factors :=
    [⟨"low_risk", ["Healthcare", "Professional Services", "Technology", "Education"], -0.02⟩,
     ⟨"medium_risk", ["Retail", "E-commerce", "Construction", "Manufacturing"], 0.0⟩,
     ⟨"high_risk", ["Restaurant", "Hospitality", "Auto Repair", "Salon/Spa"], 0.05⟩]
  base_factor_rates :=
    { premium := ⟨85, 1.15⟩
      standard := ⟨70, 1.25⟩
      subprime := ⟨50, 1.35⟩
      high_risk := ⟨0, 1.45⟩ }

/-- Outcome of trying to read the configuration source, abstracting the
`open`/`json.load` calls of `load_mca_criteria`: the file may be absent
(`FileNotFoundError`), unparseable (`json.JSONDecodeError`), or yield a
configuration value. -/
inductive ConfigSource where
  | missing : ConfigSource
  | malformed : ConfigSource
  | valid : Criteria → ConfigSource

/-- Embedding of `load_mca_criteria`: both failure branches print a warning
to stderr (not modelled) and return the built-in defaults; a readable
source is returned as parsed. -/
def load_mca_criteria : ConfigSource → Criteria
  | ConfigSource.missing => get_default_mca_criteria
  | ConfigSource.malformed => get_default_mca_criteria
  | ConfigSource.valid config => config

/-! Scoring engine. Each per-criterion function returns the dictionary
`{score, max_points, tier}`; the source computes the branch's score and
then rounds it once to one decimal in the returned dictionary, which is
written here as `roundTo 1` of the branch value. -/

/-- Per-criterion result dictionary (`score`, `max_points`, and the
`tier` / `risk_level` label; prose `reasoning` omitted). -/
structure CriterionScore where
  score : ℚ
  max_points : ℚ
  tier : String

/-- Embedding of `score_revenue`. -/
def score_revenue (monthly_revenue : ℚ) (criteria : Criteria) : CriterionScore :=
  let tiers := criteria.revenue_tiers
  let max_points : ℚ := 40
  if monthly_revenue ≥ tiers.tier_1.min then ⟨roundTo 1 max_points, max_points, "tier_1"⟩
  else if monthly_revenue ≥ tiers.tier_2.min then
    ⟨roundTo 1 (max_points * 0.85), max_points, "tier_2"⟩
  else if monthly_revenue ≥ tiers.tier_3.min then
    ⟨roundTo 1 (max_points * 0.70), max_points, "tier_3"⟩
  else if monthly_revenue ≥ tiers.tier_4.min then
    ⟨roundTo 1 (max_points * 0.50), max_points, "tier_4"⟩
  else ⟨roundTo 1 0, max_points, "below_minimum"⟩

/-- Embedding of `score_credit`. -/
def score_credit (credit_score : ℤ) (criteria : Criteria) : CriterionScore :=
  let tiers := criteria.credit_score_tiers
  let max_points : ℚ := 25
  if credit_score ≥ tiers.excellent.min then ⟨roundTo 1 max_points, max_points, "excellent"⟩
  else if credit_score ≥ tiers.good.min then
    ⟨roundTo 1 (max_points * 0.90), max_points, "good"⟩
  else if credit_score ≥ tiers.fair.min then
    ⟨roundTo 1 (max_points * 0.75), max_points, "fair"⟩
  else if credit_score ≥ tiers.poor.min then
    ⟨roundTo 1 (max_points * 0.60), max_points, "poor"⟩
  else if credit_score ≥ tiers.very_poor.min then
    ⟨roundTo 1 (max_points * 0.40), max_points, "very_poor"⟩
  else ⟨roundTo 1 0, max_points, "below_minimum"⟩

/-- Embedding of `score_time_in_business`. -/
def score_time_in_business (months : ℤ) (criteria : Criteria) : CriterionScore :=
  let tiers := criteria.time_in_business_multipliers
  let max_points : ℚ := 20
  if months ≥ tiers.established.min_months then ⟨roundTo 1 max_points, max_points, "established"⟩
  else if months ≥ tiers.mature.min_months then
    ⟨roundTo 1 (max_points * 0.85), max_points, "mature"⟩
  else if months ≥ tiers.growing.min_months then
    ⟨roundTo 1 (max_points * 0.70), max_points, "growing"⟩
  else if months ≥ tiers.new.min_months then
    ⟨roundTo 1 (max_points * 0.50), max_points, "new"⟩
  else ⟨roundTo 1 0, max_points, "too_new"⟩

/-- Embedding of Python's `str.lower()` as a character list (the
configured industry names are all ASCII). -/
def pyLower (s : String) : List Char := s.toList.map Char.toLower

/-- Embedding of Python's substring test `a in b`. -/
def pyIn (a b : List Char) : Bool := decide (a <:+: b)

/-- The per-class match test of `score_industry` / `get_industry_adjustment`:
some configured name matches the applicant's industry as a substring in
either direction, case-insensitively. -/
def industryMatches (industry_lower : List Char) (risk_data : IndustryRiskClass) : Bool :=
  risk_data.industries.any fun ind =>
    pyIn (pyLower ind) industry_lower || pyIn industry_lower (pyLower ind)

/-- Embedding of `score_industry`: the dict loop over
`industry_risk_factors` returning on the first matching class is
`List.find?` over the classes in insertion order; no match falls through
to the medium-risk default score with risk level `"unknown"`. -/
def score_industry (industry : String) (criteria : Criteria) : CriterionScore :=
  let max_points : ℚ := 15
  let industry_lower := pyLower industry
  match criteria.industry_risk_factors.find? (industryMatches industry_lower) with
  | some risk_data =>
      if risk_data.name = "low_risk" then ⟨roundTo 1 max_points, max_points, risk_data.name⟩
      else if risk_data.name = "medium_risk" then
        ⟨roundTo 1 (max_points * 0.80), max_points, risk_data.name⟩
      else ⟨roundTo 1 (max_points * 0.60), max_points, risk_data.name⟩
  | none => ⟨roundTo 1 (max_points * 0.75), max_points, "unknown"⟩

/-- Embedding of `get_score_grade`. -/
def get_score_grade (score : ℚ) : String :=
  if score ≥ 85 then "A"
  else if score ≥ 70 then "B"
  else if score ≥ 50 then "C"
  else if score ≥ 30 then "D"
  else "F"

/-- Result dictionary of `calculate_qualification_score` (the
`score_breakdown` sub-dictionary is flattened into the four criterion
fields). -/
structure QualScore where
  total_score : ℚ
  max_score : ℚ
  revenue : CriterionScore
  credit : CriterionScore
  time_in_business : CriterionScore
  industry : CriterionScore
  grade : String

/-- Embedding of `calculate_qualification_score`: the four sub-scores are
summed, the total is rounded to one decimal, and the grade is taken from
the unrounded total. -/
def calculate_qualification_score (business_data : BusinessData) (criteria : Criteria) :
    QualScore :=
  let revenue_score := score_revenue business_data.monthly_revenue criteria
  let credit_score := score_credit business_data.credit_score criteria
  let time_score := score_time_in_business business_data.time_in_business_months criteria
  let industry_score := score_industry business_data.industry criteria
  let total_score :=
    revenue_score.score + credit_score.score + time_score.score + industry_score.score
  { total_score := roundTo 1 total_score
    max_score := 100
    revenue := revenue_score
    credit := credit_score
    time_in_business := time_score
    industry := industry_score
    grade := get_score_grade total_score }

/-! Decision engine. -/

/-- Tag for one formatted floor-violation reason string appended to
`rejections` in `make_qualification_decision`. -/
inductive FloorViolation where
  | revenue : FloorViolation
  | time_in_business : FloorViolation
  | credit : FloorViolation
deriving DecidableEq

/-- Embedding of `get_approval_tier`. -/
def get_approval_tier (score : ℚ) : String :=
  if score ≥ 85 then "Premium"
  else if score ≥ 70 then "Standard"
  else "Subprime"

/-- Embedding of `get_confidence_level`. -/
def get_confidence_level (score : ℚ) : String :=
  if score ≥ 85 then "High"
  else if score ≥ 70 then "Medium-High"
  else if score ≥ 50 then "Medium"
  else "Low"

/-- Decision dictionary. `floor_reasons` holds the `rejection_reasons`
of the minimum-requirements branch, one tag per violated floor; the
score-derived prose of the low-score branch and the
`recommendations` / `approval_reasons` / `conditions` lists are not
modelled. -/
structure Decision where
  status : String
  decision : String
  floor_reasons : List FloorViolation
  approval_tier : Option String
  confidence_level : Option String

/-- Embedding of `make_qualification_decision`: the three floor checks
each append their reason, so all violations are collected before the
single `if rejections` test; only then is the score compared against the
hard-coded approval threshold 50. -/
def make_qualification_decision (business_data : BusinessData)
    (qualification_score : QualScore) (criteria : Criteria) : Decision :=
  let min_req := criteria.minimum_requirements
  let rejections : List FloorViolation :=
    (if business_data.monthly_revenue < min_req.monthly_revenue
      then [FloorViolation.revenue] else []) ++
    (if business_data.time_in_business_months < min_req.time_in_business_months
      then [FloorViolation.time_in_business] else []) ++
    (if business_data.credit_score < min_req.credit_score
      then [FloorViolation.credit] else [])
  if rejections ≠ [] then
    { status := "REJECTED", decision := "declined", floor_reasons := rejections
      approval_tier := none, confidence_level := none }
  else
    let score := qualification_score.total_score
    if score ≥ 50 then
      { status := "APPROVED", decision := "approved", floor_reasons := []
        approval_tier := some (get_approval_tier score)
        confidence_level := some (get_confidence_level score) }
    else
      { status := "REJECTED", decision := "declined", floor_reasons := []
        approval_tier := none, confidence_level := none }

/-! Advance calculation engine. -/

/-- Embedding of `get_revenue_tier`. -/
def get_revenue_tier (monthly_revenue : ℚ) (criteria : Criteria) : RevenueTier :=
  let tiers := criteria.revenue_tiers
  if monthly_revenue ≥ tiers.tier_1.min then tiers.tier_1
  else if monthly_revenue ≥ tiers.tier_2.min then tiers.tier_2
  else if monthly_revenue ≥ tiers.tier_3.min then tiers.tier_3
  else tiers.tier_4

/-- Embedding of `get_time_multiplier`. -/
def get_time_multiplier (months : ℤ) (criteria : Criteria) : ℚ :=
  let tiers := criteria.time_in_business_multipliers
  if months ≥ tiers.established.min_months then tiers.established.multiplier
  else if months ≥ tiers.mature.min_months then tiers.mature.multiplier
  else if months ≥ tiers.growing.min_months then tiers.growing.multiplier
  else tiers.new.multiplier

/-- Embedding of `get_base_factor_rate`. -/
def get_base_factor_rate (score : ℚ) (criteria : Criteria) : ℚ :=
  let rates := criteria.base_factor_rates
  if score ≥ rates.premium.min_score then rates.premium.factor_rate
  else if score ≥ rates.standard.min_score then rates.standard.factor_rate
  else if score ≥ rates.subprime.min_score then rates.subprime.factor_rate
  else rates.high_risk.factor_rate

/-- Embedding of `get_credit_adjustment`. -/
def get_credit_adjustment (credit_score : ℤ) (criteria : Criteria) : ℚ :=
  let tiers := criteria.credit_score_tiers
  if credit_score ≥ tiers.excellent.min then tiers.excellent.factor_rate_adjustment
  else if credit_score ≥ tiers.good.min then tiers.good.factor_rate_adjustment
  else if credit_score ≥ tiers.fair.min then tiers.fair.factor_rate_adjustment
  else if credit_score ≥ tiers.poor.min then tiers.poor.factor_rate_adjustment
  else tiers.very_poor.factor_rate_adjustment

/-- Embedding of `get_industry_adjustment` (same first-match dict loop as
`score_industry`, defaulting to the neutral adjustment 0.0). -/
def get_industry_adjustment (industry : String) (criteria : Criteria) : ℚ :=
  match criteria.industry_risk_factors.find? (industryMatches (pyLower industry)) with
  | some risk_data => risk_data.factor_rate_adjustment
  | none => 0.0

/-- Embedding of `get_recommended_term`. -/
def get_recommended_term (score : ℚ) : ℤ :=
  if score ≥ 85 then 6
  else if score ≥ 70 then 6
  else if score ≥ 50 then 9
  else 12

/-- Embedding of `calculate_effective_apr`. -/
def calculate_effective_apr (factor_rate : ℚ) (term_months : ℤ) : ℚ :=
  let cost_percentage := (factor_rate - 1.0) * 100
  if term_months > 0 then (cost_percentage / (term_months : ℚ)) * 12
  else 0

/-- The `calculation_details` sub-dictionary of an offer. -/
structure CalculationDetails where
  base_advance_percentage : ℚ
  time_in_business_multiplier : ℚ
  base_factor_rate : ℚ
  credit_adjustment : ℚ
  industry_adjustment : ℚ

/-- Offer dictionary returned by `calculate_advance_offer`. -/
structure Offer where
  advance_amount : ℚ
  factor_rate : ℚ
  total_repayment : ℚ
  recommended_term_months : ℤ
  daily_payment : ℚ
  effective_apr : ℚ
  calculation_details : CalculationDetails

/-- Embedding of `calculate_advance_offer`. Note that the source function
takes only the applicant, the scoring result and the criteria — it
receives no decision and has no failure path. -/
def calculate_advance_offer (business_data : BusinessData)
    (qualification_score : QualScore) (criteria : Criteria) : Offer :=
  let monthly_revenue := business_data.monthly_revenue
  let credit_score := business_data.credit_score
  let time_in_business := business_data.time_in_business_months
  let industry := business_data.industry
  let revenue_tier_data := get_revenue_tier monthly_revenue criteria
  let max_advance_pct := revenue_tier_data.max_advance_percentage
  let time_multiplier := get_time_multiplier time_in_business criteria
  let base_advance := monthly_revenue * (max_advance_pct / 100)
  let adjusted_advance := base_advance * time_multiplier
  let base_factor_rate := get_base_factor_rate qualification_score.total_score criteria
  let credit_adjustment := get_credit_adjustment credit_score criteria
  let industry_adjustment := get_industry_adjustment industry criteria
  let final_factor_rate := base_factor_rate + credit_adjustment + industry_adjustment
  let final_factor_rate := max 1.10 (min 1.50 final_factor_rate)
  let total_repayment := adjusted_advance * final_factor_rate
  let recommended_term := get_recommended_term qualification_score.total_score
  let daily_repayment := total_repayment / ((recommended_term : ℚ) * 22)
  let effective_apr := calculate_effective_apr final_factor_rate recommended_term
  { advance_amount := roundTo 2 adjusted_advance
    factor_rate := roundTo 3 final_factor_rate
    total_repayment := roundTo 2 total_repayment
    recommended_term_months := recommended_term
    daily_payment := roundTo 2 daily_repayment
    effective_apr := roundTo 2 effective_apr
    calculation_details :=
      { base_advance_percentage := max_advance_pct
        time_in_business_multiplier := time_multiplier
        base_factor_rate := roundTo 3 base_factor_rate
        credit_adjustment := roundTo 3 credit_adjustment
        industry_adjustment := roundTo 3 industry_adjustment } }

/-! Pipeline wiring of `main` (steps 3-5). -/

/-- Result of one pipeline run: the scoring result, the decision, and the
offer when one was computed. -/
structure PipelineResult where
  qualification_score : QualScore
  decision : Decision
  offer : Option Offer

/-- Embedding of steps 3-5 of `main`: score, decide, and call
`calculate_advance_offer` only when `decision['decision'] == 'approved'`. -/
def runPipeline (business_data : BusinessData) (criteria : Criteria) : PipelineResult :=
  let qualification_score := calculate_qualification_score business_data criteria
  let decision := make_qualification_decision business_data qualification_score criteria
  let offer : Option Offer :=
    if decision.decision = "approved" then
      some (calculate_advance_offer business_data qualification_score criteria)
    else none
  ⟨qualification_score, decision, offer⟩

/-! Concrete sample applicants used by the witnesses and counterexamples. -/

/-- Applicant with revenue below the 10000 floor (rejected by the
decision engine). -/
def sampleRejected : BusinessData := ⟨5000, 24, 650, "Restaurant"⟩

/-- Applicant with negative revenue, credit score outside [300, 850] and
an industry matching no configured class. -/
def sampleOutOfDomain : BusinessData := ⟨-5000, 12, 200, "Blargh"⟩

/-- Applicant passing all floors of the default configuration. -/
def sampleApproved : BusinessData := ⟨20000, 12, 600, "Retail"⟩

/-- Applicant violating all three floors of the default configuration. -/
def sampleAllFloorsViolated : BusinessData := ⟨5000, 2, 400, "Retail"⟩

/-- Scoring result whose total is exactly the approval threshold 50 (the
decision engine reads only `total_score` from it). -/
def qsAtThreshold : QualScore :=
  ⟨50, 100, ⟨0, 0, ""⟩, ⟨0, 0, ""⟩, ⟨0, 0, ""⟩, ⟨0, 0, ""⟩, "C"⟩

/-! Per-criterion bounds: each sub-score stays between 0 and its
criterion's `max_points`, for every input and every configuration,
because every branch awards a fixed fraction of the fixed maximum. -/

theorem score_revenue_bounds (monthly_revenue : ℚ) (criteria : Criteria) :
    0 ≤ (score_revenue monthly_revenue criteria).score ∧
    (score_revenue monthly_revenue criteria).score ≤ 40 := by
  simp only [score_revenue]
  split_ifs <;> constructor <;> norm_num [roundTo, rndHalfEven]

theorem score_credit_bounds (credit_score : ℤ) (criteria : Criteria) :
    0 ≤ (score_credit credit_score criteria).score ∧
    (score_credit credit_score criteria).score ≤ 25 := by
  simp only [score_credit]
  split_ifs <;> constructor <;> norm_num [roundTo, rndHalfEven]

theorem score_time_in_business_bounds (months : ℤ) (criteria : Criteria) :
    0 ≤ (score_time_in_business months criteria).score ∧
    (score_time_in_business months criteria).score ≤ 20 := by
  simp only [score_time_in_business]
  split_ifs <;> constructor <;> norm_num [roundTo, rndHalfEven]

theorem score_industry_bounds (industry : String) (criteria : Criteria) :
    0 ≤ (score_industry industry criteria).score ∧
    (score_industry industry criteria).score ≤ 15 := by
  simp only [score_industry]
  cases hf : criteria.industry_risk_factors.find? (industryMatches (pyLower industry)) with
  | none => norm_num [roundTo, rndHalfEven]
  | some risk_data =>
      dsimp only
      split_ifs <;> constructor <;> norm_num [roundTo, rndHalfEven]

/-- C3: for every applicant and every configuration, the `total_score`
produced by `calculate_qualification_score` — the sum of the four rounded
sub-scores, itself rounded to one decimal — lies within [0, 100]. -/
theorem C3_total_score_in_range (business_data : BusinessData) (criteria : Criteria) :
    0 ≤ (calculate_qualification_score business_data criteria).total_score ∧
    (calculate_qualification_score business_data criteria).total_score ≤ 100 := by
  have h1 := score_revenue_bounds business_data.monthly_revenue criteria
  have h2 := score_credit_bounds business_data.credit_score criteria
  have h3 := score_time_in_business_bounds business_data.time_in_business_months criteria
  have h4 := score_industry_bounds business_data.industry criteria
  simp only [calculate_qualification_score]
  constructor
  · calc (0 : ℚ) = roundTo 1 0 := by norm_num [roundTo, rndHalfEven]
      _ ≤ _ := roundTo_mono 1 (by linarith [h1.1, h2.1, h3.1, h4.1])
  · calc _ ≤ roundTo 1 100 := roundTo_mono 1 (by linarith [h1.2, h2.2, h3.2, h4.2])
      _ = 100 := by norm_num [roundTo, rndHalfEven]

/-- C2: the `factor_rate` of every offer produced by
`calculate_advance_offer` lies in the fixed global range [1.10, 1.50],
for every applicant, every scoring result and every configuration (hence
for every combination of base rate, credit adjustment and industry
adjustment, however far outside the range their unclamped sum falls). -/
theorem C2_factor_rate_clamped (business_data : BusinessData)
    (qualification_score : QualScore) (criteria : Criteria) :
    1.10 ≤ (calculate_advance_offer business_data qualification_score criteria).factor_rate ∧
    (calculate_advance_offer business_data qualification_score criteria).factor_rate ≤ 1.50 := by
  simp only [calculate_advance_offer]
  constructor
  · calc (1.10 : ℚ) = roundTo 3 1.10 := by norm_num [roundTo, rndHalfEven]
      _ ≤ _ := roundTo_mono 3 (le_max_left _ _)
  · calc _ ≤ roundTo 3 1.50 := roundTo_mono 3 (max_le (by norm_num) (min_le_left _ _))
      _ = 1.50 := by norm_num [roundTo, rndHalfEven]

/-- C10: for every score, `get_recommended_term` returns 6, 9 or 12, so
the term is strictly positive, the divisor `term × 22` of the
daily-payment computation is nonzero, and `calculate_effective_apr`
applied to such a term always takes its positive-term branch (the
`term_months ≤ 0` fallback is unreachable from `calculate_advance_offer`). -/
theorem C10_recommended_term_safe (score factor_rate : ℚ) :
    (get_recommended_term score = 6 ∨ get_recommended_term score = 9 ∨
      get_recommended_term score = 12) ∧
    0 < get_recommended_term score ∧
    ((get_recommended_term score : ℚ) * 22 ≠ 0) ∧
    calculate_effective_apr factor_rate (get_recommended_term score) =
      ((factor_rate - 1.0) * 100 / (get_recommended_term score : ℚ)) * 12 := by
  simp only [get_recommended_term, calculate_effective_apr]
  split_ifs <;> first | (exfalso; omega) | norm_num

/-! Monotonicity of the per-criterion scores: the branch conditions are
lower-bound tests on the input and the branch values decrease along the
chain, so a larger input can only hit an earlier (higher-valued) branch,
whatever the configured thresholds are. -/

theorem score_revenue_mono (criteria : Criteria) {r1 r2 : ℚ} (h : r1 ≤ r2) :
    (score_revenue r1 criteria).score ≤ (score_revenue r2 criteria).score := by
  simp only [score_revenue]
  split_ifs <;> first | (exfalso; linarith) | norm_num [roundTo, rndHalfEven]

theorem score_credit_mono (criteria : Criteria) {c1 c2 : ℤ} (h : c1 ≤ c2) :
    (score_credit c1 criteria).score ≤ (score_credit c2 criteria).score := by
  simp only [score_credit]
  split_ifs <;> first | (exfalso; omega) | norm_num [roundTo, rndHalfEven]

theorem score_time_in_business_mono (criteria : Criteria) {t1 t2 : ℤ} (h : t1 ≤ t2) :
    (score_time_in_business t1 criteria).score ≤ (score_time_in_business t2 criteria).score := by
  simp only [score_time_in_business]
  split_ifs <;> first | (exfalso; omega) | norm_num [roundTo, rndHalfEven]

/-- C4: under every configuration, `total_score` is monotonically
non-decreasing in monthly revenue, in credit score, and in
time-in-business months, each with all other applicant fields held
fixed. -/
theorem C4_total_score_monotone (criteria : Criteria) (business_data : BusinessData)
    (r1 r2 : ℚ) (c1 c2 t1 t2 : ℤ) (hr : r1 ≤ r2) (hc : c1 ≤ c2) (ht : t1 ≤ t2) :
    (calculate_qualification_score
        ⟨r1, business_data.time_in_business_months, business_data.credit_score,
          business_data.industry⟩ criteria).total_score ≤
      (calculate_qualification_score
        ⟨r2, business_data.time_in_business_months, business_data.credit_score,
          business_data.industry⟩ criteria).total_score ∧
    (calculate_qualification_score
        ⟨business_data.monthly_revenue, business_data.time_in_business_months, c1,
          business_data.industry⟩ criteria).total_score ≤
      (calculate_qualification_score
        ⟨business_data.monthly_revenue, business_data.time_in_business_months, c2,
          business_data.industry⟩ criteria).total_score ∧
    (calculate_qualification_score
        ⟨business_data.monthly_revenue, t1, business_data.credit_score,
          business_data.industry⟩ criteria).total_score ≤
      (calculate_qualification_score
        ⟨business_data.monthly_revenue, t2, business_data.credit_score,
          business_data.industry⟩ criteria).total_score := by
  refine ⟨?_, ?_, ?_⟩ <;> simp only [calculate_qualification_score] <;> apply roundTo_mono
  · have := score_revenue_mono criteria hr
    linarith
  · have := score_credit_mono criteria hc
    linarith
  · have := score_time_in_business_mono criteria ht
    linarith

/-- Witness for C4 at a concrete pair of applicants for each field. -/
theorem C4_total_score_monotone_witness :
    (calculate_qualification_score ⟨5000, 24, 650, "Restaurant"⟩
        get_default_mca_criteria).total_score ≤
      (calculate_qualification_score ⟨500000, 24, 650, "Restaurant"⟩
        get_default_mca_criteria).total_score ∧
    (calculate_qualification_score ⟨5000, 24, 300, "Restaurant"⟩
        get_default_mca_criteria).total_score ≤
      (calculate_qualification_score ⟨5000, 24, 650, "Restaurant"⟩
        get_default_mca_criteria).total_score ∧
    (calculate_qualification_score ⟨5000, 3, 650, "Restaurant"⟩
        get_default_mca_criteria).total_score ≤
      (calculate_qualification_score ⟨5000, 24, 650, "Restaurant"⟩
        get_default_mca_criteria).total_score := by
  have h := C4_total_score_monotone get_default_mca_criteria ⟨5000, 24, 650, "Restaurant"⟩
    5000 500000 300 650 3 24 (by norm_num) (by norm_num) (by norm_num)
  exact h

/-- C5: an applicant below any configured floor is rejected regardless of
the scoring result handed to the decision stage, and the reason list of
the rejection carries exactly one tag per violated floor — all
violations are reported together, none is short-circuited away. -/
theorem C5_floor_enforcement (business_data : BusinessData)
    (qualification_score : QualScore) (criteria : Criteria)
    (h : business_data.monthly_revenue < criteria.minimum_requirements.monthly_revenue ∨
      business_data.time_in_business_months <
        criteria.minimum_requirements.time_in_business_months ∨
      business_data.credit_score < criteria.minimum_requirements.credit_score) :
    (make_qualification_decision business_data qualification_score criteria).status =
      "REJECTED" ∧
    (make_qualification_decision business_data qualification_score criteria).decision =
      "declined" ∧
    (FloorViolation.revenue ∈
        (make_qualification_decision business_data qualification_score criteria).floor_reasons ↔
      business_data.monthly_revenue < criteria.minimum_requirements.monthly_revenue) ∧
    (FloorViolation.time_in_business ∈
        (make_qualification_decision business_data qualification_score criteria).floor_reasons ↔
      business_data.time_in_business_months <
        criteria.minimum_requirements.time_in_business_months) ∧
    (FloorViolation.credit ∈
        (make_qualification_decision business_data qualification_score criteria).floor_reasons ↔
      business_data.credit_score < criteria.minimum_requirements.credit_score) := by
  simp only [make_qualification_decision]
  split_ifs <;> simp_all

/-- Witness for C5: an applicant violating all three floors of the
default configuration is rejected with all three reasons present. -/
theorem C5_floor_enforcement_witness :
    (make_qualification_decision sampleAllFloorsViolated qsAtThreshold
        get_default_mca_criteria).status = "REJECTED" ∧
    (make_qualification_decision sampleAllFloorsViolated qsAtThreshold
        get_default_mca_criteria).decision = "declined" ∧
    (FloorViolation.revenue ∈
        (make_qualification_decision sampleAllFloorsViolated qsAtThreshold
          get_default_mca_criteria).floor_reasons ↔
      sampleAllFloorsViolated.monthly_revenue <
        get_default_mca_criteria.minimum_requirements.monthly_revenue) ∧
    (FloorViolation.time_in_business ∈
        (make_qualification_decision sampleAllFloorsViolated qsAtThreshold
          get_default_mca_criteria).floor_reasons ↔
      sampleAllFloorsViolated.time_in_business_months <
        get_default_mca_criteria.minimum_requirements.time_in_business_months) ∧
    (FloorViolation.credit ∈
        (make_qualification_decision sampleAllFloorsViolated qsAtThreshold
          get_default_mca_criteria).floor_reasons ↔
      sampleAllFloorsViolated.credit_score <
        get_default_mca_criteria.minimum_requirements.credit_score) :=
  C5_floor_enforcement sampleAllFloorsViolated qsAtThreshold get_default_mca_criteria
    (Or.inl (by norm_num [sampleAllFloorsViolated, get_default_mca_criteria]))

/-- C6: an applicant passing all three hard floors is approved exactly
when `total_score` is at least the hard-coded approval threshold 50; in
particular a total score of exactly 50 is approved (the boundary favors
the permissive outcome). -/
theorem C6_threshold_boundary (business_data : BusinessData)
    (qualification_score : QualScore) (criteria : Criteria)
    (h1 : ¬business_data.monthly_revenue < criteria.minimum_requirements.monthly_revenue)
    (h2 : ¬business_data.time_in_business_months <
      criteria.minimum_requirements.time_in_business_months)
    (h3 : ¬business_data.credit_score < criteria.minimum_requirements.credit_score) :
    ((make_qualification_decision business_data qualification_score criteria).status =
        "APPROVED" ↔ qualification_score.total_score ≥ 50) ∧
    (qualification_score.total_score = 50 →
      (make_qualification_decision business_data qualification_score criteria).status =
        "APPROVED") := by
  simp only [make_qualification_decision, if_neg h1, if_neg h2, if_neg h3,
    List.nil_append, ne_eq, not_true_eq_false, not_false_eq_true, if_false, ite_false]
  norm_num
  split_ifs with hs
  · constructor
    · simp [hs]
    · intro _
      rfl
  · constructor
    · simp [hs]
    · intro h50
      rw [h50] at hs
      exact absurd (le_refl (50 : ℚ)) hs

/-- Witness for C6: an applicant passing all floors whose scoring result
sits exactly at the threshold is approved. -/
theorem C6_threshold_boundary_witness :
    (make_qualification_decision sampleApproved qsAtThreshold
        get_default_mca_criteria).status = "APPROVED" :=
  (C6_threshold_boundary sampleApproved qsAtThreshold get_default_mca_criteria
    (by norm_num [sampleApproved, get_default_mca_criteria])
    (by norm_num [sampleApproved, get_default_mca_criteria])
    (by norm_num [sampleApproved, get_default_mca_criteria])).2 rfl

/-! Evaluations of the first-match industry lookup on the default
configuration (the match test runs entirely over character lists, so the
kernel can evaluate it). -/

theorem find_restaurant :
    get_default_mca_criteria.industry_risk_factors.find?
        (industryMatches (pyLower "Restaurant")) =
      some ⟨"high_risk", ["Restaurant", "Hospitality", "Auto Repair", "Salon/Spa"], 0.05⟩ :=
  rfl

theorem find_empty_string :
    get_default_mca_criteria.industry_risk_factors.find? (industryMatches (pyLower "")) =
      some ⟨"low_risk", ["Healthcare", "Professional Services", "Technology", "Education"],
        -0.02⟩ :=
  rfl

theorem find_blargh :
    get_default_mca_criteria.industry_risk_factors.find?
        (industryMatches (pyLower "Blargh")) = none :=
  rfl

/-- Evaluation of the full scoring stage on `sampleRejected`. -/
theorem qs_sampleRejected :
    calculate_qualification_score sampleRejected get_default_mca_criteria =
      ⟨44.8, 100, ⟨0, 40, "below_minimum"⟩, ⟨18.8, 25, "fair"⟩, ⟨17, 20, "mature"⟩,
        ⟨9, 15, "high_risk"⟩, "D"⟩ := by
  have hrev : score_revenue (5000 : ℚ) get_default_mca_criteria = ⟨0, 40, "below_minimum"⟩ := by
    norm_num [score_revenue, get_default_mca_criteria, roundTo, rndHalfEven]
  have hcred : score_credit 650 get_default_mca_criteria = ⟨18.8, 25, "fair"⟩ := by
    norm_num [score_credit, get_default_mca_criteria, roundTo, rndHalfEven]
  have htime : score_time_in_business 24 get_default_mca_criteria = ⟨17, 20, "mature"⟩ := by
    norm_num [score_time_in_business, get_default_mca_criteria, roundTo, rndHalfEven]
  have hind : score_industry "Restaurant" get_default_mca_criteria = ⟨9, 15, "high_risk"⟩ := by
    simp only [score_industry, find_restaurant]
    rw [if_neg (by decide : ¬("high_risk" = "low_risk")),
      if_neg (by decide : ¬("high_risk" = "medium_risk"))]
    norm_num [roundTo, rndHalfEven]
  simp only [calculate_qualification_score, sampleRejected, hrev, hcred, htime, hind]
  norm_num [get_score_grade, roundTo, rndHalfEven]

/-- C1 (amended): the pipeline of `main` attaches an offer to the output
exactly when the decision is approved; the guard lives in the pipeline,
not in `calculate_advance_offer`. -/
theorem C1_offer_iff_approved (business_data : BusinessData) (criteria : Criteria) :
    (runPipeline business_data criteria).offer.isSome ↔
      (runPipeline business_data criteria).decision.decision = "approved" := by
  simp only [runPipeline]
  split_ifs with h <;> simp [h]

/-- C1 counterexample: `sampleRejected` is rejected by the decision
stage, yet calling `calculate_advance_offer` on it returns a complete
offer (there is no `PreconditionError` path — the function does not even
receive the decision). -/
theorem C1_counterexample_rejected_offer :
    (make_qualification_decision sampleRejected
        (calculate_qualification_score sampleRejected get_default_mca_criteria)
        get_default_mca_criteria).status = "REJECTED" ∧
    calculate_advance_offer sampleRejected
        (calculate_qualification_score sampleRejected get_default_mca_criteria)
        get_default_mca_criteria =
      ⟨5500, 1.5, 8250, 12, 31.25, 50, ⟨100, 1.1, 1.45, 0.03, 0.05⟩⟩ := by
  have hadj : get_industry_adjustment "Restaurant" get_default_mca_criteria = 0.05 := by
    simp only [get_industry_adjustment, find_restaurant]
  constructor
  · norm_num [make_qualification_decision, sampleRejected, get_default_mca_criteria]
  · rw [qs_sampleRejected]
    simp only [calculate_advance_offer, sampleRejected]
    rw [hadj]
    norm_num [get_revenue_tier, get_time_multiplier, get_base_factor_rate,
      get_credit_adjustment, get_default_mca_criteria, calculate_effective_apr,
      get_recommended_term, min_def, max_def, roundTo, rndHalfEven]

/-- C7 (amended): the scoring stage performs no input validation and
never fails; out-of-domain values simply fall through the tier chains —
a negative monthly revenue scores 0 in the revenue criterion and a
credit score below 300 scores 0 in the credit criterion. -/
theorem C7_no_validation (business_data : BusinessData)
    (h1 : business_data.monthly_revenue < 0) (h2 : business_data.credit_score < 300) :
    (calculate_qualification_score business_data get_default_mca_criteria).revenue.score = 0 ∧
    (calculate_qualification_score business_data get_default_mca_criteria).credit.score = 0 := by
  have hrev : score_revenue business_data.monthly_revenue get_default_mca_criteria =
      ⟨0, 40, "below_minimum"⟩ := by
    simp only [score_revenue, get_default_mca_criteria]
    rw [if_neg (by linarith), if_neg (by linarith), if_neg (by linarith),
      if_neg (by linarith)]
    norm_num [roundTo, rndHalfEven]
  have hcred : score_credit business_data.credit_score get_default_mca_criteria =
      ⟨0, 25, "below_minimum"⟩ := by
    simp only [score_credit, get_default_mca_criteria]
    rw [if_neg (by omega), if_neg (by omega), if_neg (by omega), if_neg (by omega),
      if_neg (by omega)]
    norm_num [roundTo, rndHalfEven]
  constructor <;> simp only [calculate_qualification_score, hrev, hcred]

/-- Witness for C7 (amended) at the concrete out-of-domain applicant. -/
theorem C7_no_validation_witness :
    (calculate_qualification_score sampleOutOfDomain
        get_default_mca_criteria).revenue.score = 0 ∧
    (calculate_qualification_score sampleOutOfDomain
        get_default_mca_criteria).credit.score = 0 :=
  C7_no_validation sampleOutOfDomain (by norm_num [sampleOutOfDomain])
    (by norm_num [sampleOutOfDomain])

/-- C7 counterexample: scoring an applicant with negative revenue, a
credit score outside [300, 850] and an unknown industry raises nothing
and returns a complete scoring result — no `ValidationError` exists in
the code. -/
theorem C7_counterexample_no_error :
    calculate_qualification_score sampleOutOfDomain get_default_mca_criteria =
      ⟨25.2, 100, ⟨0, 40, "below_minimum"⟩, ⟨0, 25, "below_minimum"⟩, ⟨14, 20, "growing"⟩,
        ⟨11.2, 15, "unknown"⟩, "F"⟩ := by
  have hrev : score_revenue (-5000 : ℚ) get_default_mca_criteria =
      ⟨0, 40, "below_minimum"⟩ := by
    norm_num [score_revenue, get_default_mca_criteria, roundTo, rndHalfEven]
  have hcred : score_credit 200 get_default_mca_criteria = ⟨0, 25, "below_minimum"⟩ := by
    norm_num [score_credit, get_default_mca_criteria, roundTo, rndHalfEven]
  have htime : score_time_in_business 12 get_default_mca_criteria = ⟨14, 20, "growing"⟩ := by
    norm_num [score_time_in_business, get_default_mca_criteria, roundTo, rndHalfEven]
  have hind : score_industry "Blargh" get_default_mca_criteria = ⟨11.2, 15, "unknown"⟩ := by
    simp only [score_industry, find_blargh]
    norm_num [roundTo, rndHalfEven]
  simp only [calculate_qualification_score, sampleOutOfDomain, hrev, hcred, htime, hind]
  norm_num [get_score_grade, roundTo, rndHalfEven]

/-- C8 counterexample: for both an absent and a malformed configuration
source, `load_mca_criteria` does not fail — it substitutes the built-in
default configuration itself, and evaluation proceeds with it. -/
theorem C8_counterexample_defaults_substituted :
    load_mca_criteria ConfigSource.missing = get_default_mca_criteria ∧
    load_mca_criteria ConfigSource.malformed = get_default_mca_criteria :=
  ⟨rfl, rfl⟩

/-- C8 (amended): when the configuration source is absent or malformed,
`load_mca_criteria` logs a warning and returns the built-in default
configuration instead of raising a `ConfigError`. -/
theorem C8_load_falls_back_to_defaults (source : ConfigSource)
    (h : source = ConfigSource.missing ∨ source = ConfigSource.malformed) :
    load_mca_criteria source = get_default_mca_criteria := by
  rcases h with h | h <;> rw [h] <;> rfl

/-- Witness for C8 (amended) at the absent-source case. -/
theorem C8_load_falls_back_witness :
    load_mca_criteria ConfigSource.missing = get_default_mca_criteria :=
  C8_load_falls_back_to_defaults ConfigSource.missing (Or.inl rfl)

/-- C9: any industry string whose lowercase form is a substring of some
configured industry name is assigned a matching risk class (never the
unknown-industry default), and the empty string — a substring of every
name — takes the first class in declaration order: under the default
configuration it receives the full low-risk score of 15 points and the
low-risk adjustment of -0.02. -/
theorem C9_substring_first_match (s : String)
    (h : ∃ rc ∈ get_default_mca_criteria.industry_risk_factors,
      ∃ ind ∈ rc.industries, pyLower s <:+: pyLower ind) :
    (score_industry s get_default_mca_criteria).tier ≠ "unknown" ∧
    (score_industry "" get_default_mca_criteria).score = 15 ∧
    (score_industry "" get_default_mca_criteria).tier = "low_risk" ∧
    get_industry_adjustment "" get_default_mca_criteria = -0.02 := by
  refine ⟨?_, ?_, ?_, ?_⟩
  · obtain ⟨rc, hrc, ind, hind, hsub⟩ := h
    have hmatch : industryMatches (pyLower s) rc = true := by
      simp only [industryMatches, List.any_eq_true]
      refine ⟨ind, hind, ?_⟩
      simp [pyIn, hsub]
    have hsome : (get_default_mca_criteria.industry_risk_factors.find?
        (industryMatches (pyLower s))).isSome := by
      rw [List.find?_isSome]
      exact ⟨rc, hrc, hmatch⟩
    obtain ⟨rc2, hrc2⟩ := Option.isSome_iff_exists.mp hsome
    have hmem := List.mem_of_find?_eq_some hrc2
    have hname : rc2.name = "low_risk" ∨ rc2.name = "medium_risk" ∨
        rc2.name = "high_risk" := by
      simp only [get_default_mca_criteria, List.mem_cons, List.not_mem_nil,
        or_false] at hmem
      rcases hmem with h2 | h2 | h2 <;> rw [h2]
      · exact Or.inl rfl
      · exact Or.inr (Or.inl rfl)
      · exact Or.inr (Or.inr rfl)
    have hne : rc2.name ≠ "unknown" := by
      rcases hname with h2 | h2 | h2 <;> rw [h2] <;> decide
    simp only [score_industry, hrc2]
    split_ifs <;> simpa using hne
  · simp only [score_industry, find_empty_string]
    norm_num [roundTo, rndHalfEven]
  · simp [score_industry, find_empty_string]
  · simp only [get_industry_adjustment, find_empty_string]

/-- Witness for C9 at the empty industry string. -/
theorem C9_substring_first_match_witness :
    (score_industry "" get_default_mca_criteria).tier ≠ "unknown" ∧
    (score_industry "" get_default_mca_criteria).score = 15 ∧
    (score_industry "" get_default_mca_criteria).tier = "low_risk" ∧
    get_industry_adjustment "" get_default_mca_criteria = -0.02 :=
  C9_substring_first_match "" (by decide)

end MCA
